import Mathlib

/-!
A shallow embedding of the resume-scanner frontend: the mock
`AnalysisService` (src/services/AnalysisService.ts), the `UploadSection`
file-upload handler (src/components/UploadSection.tsx), the `ResultsPanel`
render function (src/components/ResultsPanel.tsx) and the `handleAnalysis`
flow of `App` (frontend/src/App.tsx), together with theorems about their
behaviour.

Modelling conventions: `Math.random()` is an explicit rational draw `r`
(assumed in `[0, 1)` where score ranges matter), `Math.floor` is `Int.floor`,
`new Date()` is a `Nat` clock reading `now` supplied by the environment, and
the settling of the awaited promise is an explicit `Except` argument.
-/

namespace ResumeScanner

/-- The analysis mode tag, the TypeScript union type 'ats' | 'job-match'. -/
inductive Mode where
  | ats
  | jobMatch
deriving DecidableEq, Repr

/-- The `AnalysisResult` interface exported by `App.tsx`: a mode tag, two
optional scores, an HTML feedback string and a timestamp. -/
structure AnalysisResult where
  mode : Mode
  atsScore : Option ℤ
  matchScore : Option ℤ
  feedback : String
  timestamp : Nat
deriving DecidableEq, Repr

/-- The HTML template literal bound to `feedback` inside
`AnalysisService.generateATSAnalysis`, verbatim. -/
def atsFeedbackHtml : String :=
r#"
      <div class="space-y-6">
        <div class="p-4 bg-green-50 border-l-4 border-green-400 rounded-r-lg">
          <h4 class="font-semibold text-green-800 mb-2">✅ Strengths</h4>
          <ul class="text-green-700 space-y-1">
            <li>• Clear contact information and professional summary</li>
            <li>• Well-structured sections (Experience, Skills, Education)</li>
            <li>• Good use of action verbs and quantified achievements</li>
            <li>• Relevant technical skills clearly listed</li>
          </ul>
        </div>

        <div class="p-4 bg-yellow-50 border-l-4 border-yellow-400 rounded-r-lg">
          <h4 class="font-semibold text-yellow-800 mb-2">⚠️ Areas for Improvement</h4>
          <ul class="text-yellow-700 space-y-1">
            <li>• Consider adding a "Core Competencies" section with keywords</li>
            <li>• Include more industry-specific buzzwords</li>
            <li>• Add metrics to quantify your impact where possible</li>
          </ul>
        </div>

        <div class="p-4 bg-blue-50 border-l-4 border-blue-400 rounded-r-lg">
          <h4 class="font-semibold text-blue-800 mb-2">🚀 ATS Optimization Tips</h4>
          <ul class="text-blue-700 space-y-1">
            <li>• Use standard section headings (Experience, Education, Skills)</li>
            <li>• Avoid graphics, tables, or complex formatting</li>
            <li>• Include both acronyms and full terms (e.g., "AI" and "Artificial Intelligence")</li>
            <li>• Use keywords from job postings naturally throughout your resume</li>
          </ul>
        </div>

        <div class="p-4 bg-gray-50 rounded-lg">
          <h4 class="font-semibold text-gray-800 mb-2">📊 Format Analysis</h4>
          <div class="grid grid-cols-2 gap-4 text-sm">
            <div>
              <span class="font-medium">Contact Info:</span> 
              <span class="text-green-600 ml-2">✅ Complete</span>
            </div>
            <div>
              <span class="font-medium">Section Headers:</span> 
              <span class="text-green-600 ml-2">✅ Standard</span>
            </div>
            <div>
              <span class="font-medium">Bullet Points:</span> 
              <span class="text-green-600 ml-2">✅ Proper Format</span>
            </div>
            <div>
              <span class="font-medium">Keywords:</span> 
              <span class="text-yellow-600 ml-2">⚠️ Could Improve</span>
            </div>
          </div>
        </div>
      </div>
    "#

/-- The HTML template literal bound to `feedback` inside
`AnalysisService.generateJobMatchAnalysis`, verbatim. -/
def jobMatchFeedbackHtml : String :=
r#"
      <div class="space-y-6">
        <div class="p-4 bg-green-50 border-l-4 border-green-400 rounded-r-lg">
          <h4 class="font-semibold text-green-800 mb-2">✅ Strong Matches</h4>
          <ul class="text-green-700 space-y-1">
            <li>• <strong>React & TypeScript:</strong> Direct experience matches job requirements</li>
            <li>• <strong>Full-stack Development:</strong> 5+ years aligns with "Senior" level requirement</li>
            <li>• <strong>Cloud Technologies:</strong> AWS experience matches infrastructure needs</li>
            <li>• <strong>Team Leadership:</strong> Mentoring experience shows leadership capability</li>
          </ul>
        </div>

        <div class="p-4 bg-red-50 border-l-4 border-red-400 rounded-r-lg">
          <h4 class="font-semibold text-red-800 mb-2">❌ Missing Keywords</h4>
          <ul class="text-red-700 space-y-1">
            <li>• <strong>GraphQL:</strong> Mentioned as required but not in your resume</li>
            <li>• <strong>Microservices:</strong> You have experience but not explicitly stated</li>
            <li>• <strong>Agile/Scrum:</strong> Important methodology not mentioned</li>
            <li>• <strong>Testing (Jest/Cypress):</strong> QA experience should be highlighted</li>
          </ul>
        </div>

        <div class="p-4 bg-yellow-50 border-l-4 border-yellow-400 rounded-r-lg">
          <h4 class="font-semibold text-yellow-800 mb-2">⚠️ Partial Matches</h4>
          <ul class="text-yellow-700 space-y-1">
            <li>• <strong>Database Experience:</strong> You have PostgreSQL, they prefer MySQL</li>
            <li>• <strong>Mobile Development:</strong> React Native would strengthen your profile</li>
            <li>• <strong>DevOps:</strong> Docker mentioned but CI/CD pipeline experience unclear</li>
          </ul>
        </div>

        <div class="p-4 bg-blue-50 border-l-4 border-blue-400 rounded-r-lg">
          <h4 class="font-semibold text-blue-800 mb-2">🚀 Recommendations</h4>
          <ul class="text-blue-700 space-y-1">
            <li>• Add "GraphQL" to your technical skills section</li>
            <li>• Explicitly mention "microservices architecture" in your TechCorp experience</li>
            <li>• Include "Agile methodology" and "Scrum practices" in your experience</li>
            <li>• Highlight testing frameworks usage in your projects</li>
            <li>• Consider adding any mobile development experience if applicable</li>
          </ul>
        </div>

        <div class="p-4 bg-gray-50 rounded-lg">
          <h4 class="font-semibold text-gray-800 mb-2">📈 Keyword Match Analysis</h4>
          <div class="space-y-3">
            <div class="flex items-center justify-between">
              <span class="text-sm font-medium">Technical Skills Match</span>
              <div class="flex items-center space-x-2">
                <div class="w-32 bg-gray-200 rounded-full h-2">
                  <div class="bg-green-500 h-2 rounded-full" style="width: 75%"></div>
                </div>
                <span class="text-sm text-gray-600">75%</span>
              </div>
            </div>
            <div class="flex items-center justify-between">
              <span class="text-sm font-medium">Experience Level</span>
              <div class="flex items-center space-x-2">
                <div class="w-32 bg-gray-200 rounded-full h-2">
                  <div class="bg-green-500 h-2 rounded-full" style="width: 90%"></div>
                </div>
                <span class="text-sm text-gray-600">90%</span>
              </div>
            </div>
            <div class="flex items-center justify-between">
              <span class="text-sm font-medium">Industry Keywords</span>
              <div class="flex items-center space-x-2">
                <div class="w-32 bg-gray-200 rounded-full h-2">
                  <div class="bg-yellow-500 h-2 rounded-full" style="width: 60%"></div>
                </div>
                <span class="text-sm text-gray-600">60%</span>
              </div>
            </div>
          </div>
        </div>
      </div>
    "#

/-- The hard-coded sample resume text that `handleFileUpload` substitutes
for every accepted PDF, verbatim (including the mojibake bullet characters
present in the source file). -/
def mockResumeText : String :=
r#"
JOHN DOE
Software Engineer
ðŸ“§ john.doe@email.com | ðŸ“± (555) 123-4567 | ðŸ”— linkedin.com/in/johndoe

PROFESSIONAL SUMMARY
Results-driven Software Engineer with 5+ years of experience in full-stack development, 
specializing in React, Node.js, and cloud technologies. Proven track record of delivering 
scalable web applications and leading cross-functional teams.

TECHNICAL SKILLS
â€¢ Frontend: React, TypeScript, JavaScript, HTML5, CSS3, Tailwind CSS
â€¢ Backend: Node.js, Python, Express.js, FastAPI
â€¢ Databases: PostgreSQL, MongoDB, Redis
â€¢ Cloud: AWS, Docker, Kubernetes
â€¢ Tools: Git, Webpack, Jest, CI/CD

PROFESSIONAL EXPERIENCE

Senior Software Engineer | TechCorp Inc. | 2021 - Present
â€¢ Led development of customer-facing web application serving 100k+ users
â€¢ Implemented microservices architecture reducing system downtime by 40%
â€¢ Mentored junior developers and established coding best practices
â€¢ Technologies: React, Node.js, AWS, PostgreSQL

Software Developer | StartupXYZ | 2019 - 2021
â€¢ Developed responsive web applications using modern JavaScript frameworks
â€¢ Collaborated with design team to implement pixel-perfect user interfaces
â€¢ Optimized database queries improving application performance by 60%
â€¢ Technologies: Vue.js, Python, MongoDB

EDUCATION
Bachelor of Science in Computer Science
University of Technology | 2015 - 2019

CERTIFICATIONS
â€¢ AWS Certified Solutions Architect
â€¢ Google Cloud Professional Developer

PROJECTS
â€¢ Open-source contributor to React ecosystem (2000+ GitHub stars)
â€¢ Built personal finance app with 10k+ active users
"#

/-- `AnalysisService.generateATSAnalysis`: score is
`Math.floor(Math.random() * 3) + 7` with the random draw `r` made explicit;
the result carries the static ATS feedback block and the clock reading. -/
def generateATSAnalysis (resumeText : String) (r : ℚ) (now : Nat) : AnalysisResult :=
  let score : ℤ := ⌊r * 3⌋ + 7
  { mode := Mode.ats
    atsScore := some score
    matchScore := none
    feedback := atsFeedbackHtml
    timestamp := now }

/-- `AnalysisService.generateJobMatchAnalysis`: score is
`Math.floor(Math.random() * 4) + 6` with the random draw `r` made explicit;
the result carries the static job-match feedback block and the clock
reading. -/
def generateJobMatchAnalysis (resumeText : String) (jobDescription : String)
    (r : ℚ) (now : Nat) : AnalysisResult :=
  let score : ℤ := ⌊r * 4⌋ + 6
  { mode := Mode.jobMatch
    atsScore := none
    matchScore := some score
    feedback := jobMatchFeedbackHtml
    timestamp := now }

/-- The observable outcome of one `AnalysisService.analyzeResume` call: the
`setTimeout` delay in milliseconds awaited before anything is produced, and
the resolved result. -/
structure AnalyzeOutcome where
  delayMs : Nat
  result : AnalysisResult
deriving DecidableEq, Repr

/-- `AnalysisService.analyzeResume`: awaits `setTimeout(resolve, 2000)`, then
dispatches on `mode`; the optional `jobDescription` argument is defaulted to
the empty string by the `jobDescription || ''` at the call of
`generateJobMatchAnalysis`. -/
def analyzeResume (resumeText : String) (jobDescription : Option String)
    (mode : Mode) (r : ℚ) (now : Nat) : AnalyzeOutcome :=
  { delayMs := 2000
    result :=
      if mode = Mode.ats then
        generateATSAnalysis resumeText r now
      else
        generateJobMatchAnalysis resumeText (jobDescription.getD "") r now }

/-- The fields of a DOM `File` value that `handleFileUpload` could observe. -/
structure UploadedFile where
  type : String
  name : String
  size : Nat
  contents : String
deriving DecidableEq, Repr

/-- The externally visible effect of one `UploadSection.handleFileUpload`
call: either an alert with no change to the resume text, or a
`setResumeText` call together with the success alert. -/
inductive UploadEffect where
  | rejected (alertMessage : String)
  | uploaded (newResumeText : String) (alertMessage : String)
deriving DecidableEq, Repr

/-- `UploadSection.handleFileUpload`: rejects any file whose `type` is not
'application/pdf'; otherwise sets the resume text to the hard-coded
`mockResumeText` and alerts success. -/
def handleFileUpload (file : UploadedFile) : UploadEffect :=
  if file.type ≠ "application/pdf" then
    UploadEffect.rejected "Please upload a PDF file"
  else
    UploadEffect.uploaded mockResumeText
      "Resume uploaded successfully! (Demo version - using sample resume)"

/-- JavaScript `a || b` on two optional numbers: `undefined` and `0` are
falsy, so `a` wins exactly when it is present and non-zero. -/
def jsOrNum (a b : Option ℤ) : Option ℤ :=
  match a with
  | some x => if x = 0 then b else some x
  | none => b

/-- `getScoreColor` from `ResultsPanel`. -/
def getScoreColor (score : ℤ) : String :=
  if 8 ≤ score then "text-green-600 bg-green-100"
  else if 6 ≤ score then "text-yellow-600 bg-yellow-100"
  else "text-red-600 bg-red-100"

/-- `getScoreIcon` from `ResultsPanel`: `true` stands for the `CheckCircle`
icon, `false` for the `AlertTriangle` icon. -/
def getScoreIcon (score : ℤ) : Bool :=
  if 8 ≤ score then true else false

/-- The score badge of the `ResultsPanel` result card. -/
structure ScoreBadge where
  colorClass : String
  checkIcon : Bool
  display : Option ℤ
deriving DecidableEq, Repr

/-- What one render of `ResultsPanel` produces: the loading spinner, the
empty "Ready to Analyze" state, or the result card with its title, optional
score badge, and the feedback string injected as raw HTML via
`dangerouslySetInnerHTML`. -/
inductive PanelView where
  | loading
  | empty
  | resultCard (title : String) (badge : Option ScoreBadge) (feedbackHtml : String)
deriving DecidableEq, Repr

/-- The badge of the result card, rendered exactly when
`result.atsScore !== undefined || result.matchScore !== undefined`; colour
and icon are computed from `result.atsScore || result.matchScore || 0` and
the displayed number is `result.atsScore || result.matchScore`. -/
def panelBadge (result : AnalysisResult) : Option ScoreBadge :=
  if result.atsScore.isSome || result.matchScore.isSome then
    let colorArg : ℤ := (jsOrNum result.atsScore result.matchScore).getD 0
    some { colorClass := getScoreColor colorArg
           checkIcon := getScoreIcon colorArg
           display := jsOrNum result.atsScore result.matchScore }
  else
    none

/-- The heading of the result card, chosen by `result.mode`. -/
def panelTitle (mode : Mode) : String :=
  if mode = Mode.ats then "ATS Health Check Results" else "Job Match Analysis Results"

/-- `ResultsPanel`: the loading spinner while `isAnalyzing`, the empty
state when there is no result, and otherwise the result card. -/
def renderResultsPanel (result : Option AnalysisResult) (isAnalyzing : Bool) :
    PanelView :=
  if isAnalyzing then
    PanelView.loading
  else
    match result with
    | none => PanelView.empty
    | some r => PanelView.resultCard (panelTitle r.mode) (panelBadge r) r.feedback

/-- The `App` state hooks that `handleAnalysis` reads and writes. -/
structure AppState where
  resumeText : String
  jobDescription : String
  analysisResult : Option AnalysisResult
  isAnalyzing : Bool
deriving DecidableEq, Repr

/-- One observable step of `handleAnalysis`: an `alert`, a
`setIsAnalyzing`, the awaited `AnalysisService.analyzeResume` call with the
arguments it receives, a `setAnalysisResult`, or a `console.error`. -/
inductive Step where
  | alertShown (message : String)
  | setIsAnalyzing (value : Bool)
  | awaitService (resumeText : String) (jobDescription : Option String) (mode : Mode)
  | setAnalysisResult (result : AnalysisResult)
  | consoleError
deriving DecidableEq, Repr

/-- JavaScript `String.prototype.trim` as used by the `handleAnalysis`
guards, modelled structurally over the character list: strip leading and
trailing whitespace. -/
def jsTrim (s : String) : String :=
  String.mk (((s.data.dropWhile Char.isWhitespace).reverse.dropWhile
    Char.isWhitespace).reverse)

/-- The step trace of `handleAnalysis` on state `s` with mode `mode`, when
the awaited `analyzeResume` promise settles as `outcome` (`Except.ok` for a
resolution, `Except.error` for a rejection). The guards mirror
`!resumeText.trim()` and `mode === 'job-match' && !jobDescription.trim()`,
and the service receives `jobDescription` only in job-match mode. -/
def handleAnalysisSteps (s : AppState) (mode : Mode)
    (outcome : Except String AnalysisResult) : List Step :=
  if (jsTrim s.resumeText) = "" then
    [Step.alertShown "Please upload a resume first"]
  else if mode = Mode.jobMatch ∧ (jsTrim s.jobDescription) = "" then
    [Step.alertShown "Please provide a job description for job-specific analysis"]
  else
    Step.setIsAnalyzing true ::
    Step.awaitService s.resumeText
      (if mode = Mode.jobMatch then some s.jobDescription else none) mode ::
    match outcome with
    | Except.ok result =>
        [Step.setAnalysisResult result, Step.setIsAnalyzing false]
    | Except.error _ =>
        [Step.consoleError,
         Step.alertShown "Analysis failed. Please try again.",
         Step.setIsAnalyzing false]

/-- How each step updates the `App` state; alerts, the awaited call and
console logging do not touch the state hooks. -/
def applyStep (s : AppState) : Step → AppState
  | Step.setIsAnalyzing value => { s with isAnalyzing := value }
  | Step.setAnalysisResult result => { s with analysisResult := some result }
  | _ => s

/-- The `App` state after `handleAnalysis` has run to completion. -/
def handleAnalysis (s : AppState) (mode : Mode)
    (outcome : Except String AnalysisResult) : AppState :=
  (handleAnalysisSteps s mode outcome).foldl applyStep s

/-- Whether a step is an `alert`. -/
def isAlert : Step → Bool
  | Step.alertShown _ => true
  | _ => false

/-- Whether a step is the awaited `analyzeResume` call. -/
def isAwait : Step → Bool
  | Step.awaitService _ _ _ => true
  | _ => false

/-- C1: every `analyzeResume` call resolves to a result whose `mode` field
equals the mode argument and whose `feedback` is the static HTML block
chosen solely by the mode (the ATS block for 'ats', the job-match block
otherwise); in 'ats' mode the result carries `atsScore` with `matchScore`
absent, and in 'job-match' mode it carries `matchScore` with `atsScore`
absent. -/
theorem analyzeResume_result_shape (resumeText : String)
    (jobDescription : Option String) (r : ℚ) (now : Nat) :
    ((analyzeResume resumeText jobDescription Mode.ats r now).result.mode = Mode.ats
      ∧ (analyzeResume resumeText jobDescription Mode.ats r now).result.feedback
          = atsFeedbackHtml
      ∧ (analyzeResume resumeText jobDescription Mode.ats r now).result.atsScore.isSome
          = true
      ∧ (analyzeResume resumeText jobDescription Mode.ats r now).result.matchScore
          = none)
    ∧ ((analyzeResume resumeText jobDescription Mode.jobMatch r now).result.mode
          = Mode.jobMatch
      ∧ (analyzeResume resumeText jobDescription Mode.jobMatch r now).result.feedback
          = jobMatchFeedbackHtml
      ∧ (analyzeResume resumeText jobDescription Mode.jobMatch r now).result.matchScore.isSome
          = true
      ∧ (analyzeResume resumeText jobDescription Mode.jobMatch r now).result.atsScore
          = none) := by
  simp [analyzeResume, generateATSAnalysis, generateJobMatchAnalysis]

/-- C3: `analyzeResume` awaits a fixed `setTimeout` delay of exactly 2000
milliseconds before producing its result, for every input and both modes. -/
theorem analyzeResume_delay (resumeText : String) (jobDescription : Option String)
    (mode : Mode) (r : ℚ) (now : Nat) :
    (analyzeResume resumeText jobDescription mode r now).delayMs = 2000 := rfl

/-- C6: two `analyzeResume` calls with the same mode but different resume
text or job description are indistinguishable: with the same random draw and
clock reading the full results coincide, and the `feedback` and `mode`
fields coincide even across different draws and clock readings. -/
theorem analyzeResume_noninterference (rt₁ rt₂ : String)
    (jd₁ jd₂ : Option String) (mode : Mode) (r : ℚ) (now : Nat) :
    (analyzeResume rt₁ jd₁ mode r now).result
        = (analyzeResume rt₂ jd₂ mode r now).result
    ∧ ∀ (r₂ : ℚ) (now₂ : Nat),
        (analyzeResume rt₁ jd₁ mode r now).result.feedback
            = (analyzeResume rt₂ jd₂ mode r₂ now₂).result.feedback
        ∧ (analyzeResume rt₁ jd₁ mode r now).result.mode
            = (analyzeResume rt₂ jd₂ mode r₂ now₂).result.mode := by
  cases mode <;>
    simp [analyzeResume, generateATSAnalysis, generateJobMatchAnalysis]

/-- C8: assuming the random draw lies in `[0, 1)`, `generateATSAnalysis`
produces `atsScore = Math.floor(r * 3) + 7`, which lies in `{7, 8, 9}`, and
`generateJobMatchAnalysis` produces `matchScore = Math.floor(r * 4) + 6`,
which lies in `{6, 7, 8, 9}`. -/
theorem generated_scores_in_range (resumeText jobDescription : String)
    (r : ℚ) (now : Nat) (h0 : 0 ≤ r) (h1 : r < 1) :
    ((generateATSAnalysis resumeText r now).atsScore = some (⌊r * 3⌋ + 7)
      ∧ 7 ≤ ⌊r * 3⌋ + 7 ∧ ⌊r * 3⌋ + 7 ≤ 9)
    ∧ ((generateJobMatchAnalysis resumeText jobDescription r now).matchScore
          = some (⌊r * 4⌋ + 6)
      ∧ 6 ≤ ⌊r * 4⌋ + 6 ∧ ⌊r * 4⌋ + 6 ≤ 9) := by
  have h3lo : (0 : ℤ) ≤ ⌊r * 3⌋ := Int.le_floor.mpr (by push_cast; nlinarith)
  have h3hi : ⌊r * 3⌋ < 3 := Int.floor_lt.mpr (by push_cast; nlinarith)
  have h4lo : (0 : ℤ) ≤ ⌊r * 4⌋ := Int.le_floor.mpr (by push_cast; nlinarith)
  have h4hi : ⌊r * 4⌋ < 4 := Int.floor_lt.mpr (by push_cast; nlinarith)
  refine ⟨⟨rfl, by omega, by omega⟩, ⟨rfl, by omega, by omega⟩⟩

/-- Witness for the C8 theorem at the concrete draw `r = 0`. -/
theorem generated_scores_in_range_witness :
    ((0 : ℚ) ≤ 0 ∧ (0 : ℚ) < 1)
    ∧ (((generateATSAnalysis "resume" 0 0).atsScore = some (⌊(0 : ℚ) * 3⌋ + 7)
        ∧ 7 ≤ ⌊(0 : ℚ) * 3⌋ + 7 ∧ ⌊(0 : ℚ) * 3⌋ + 7 ≤ 9)
      ∧ ((generateJobMatchAnalysis "resume" "job" 0 0).matchScore
            = some (⌊(0 : ℚ) * 4⌋ + 6)
        ∧ 6 ≤ ⌊(0 : ℚ) * 4⌋ + 6 ∧ ⌊(0 : ℚ) * 4⌋ + 6 ≤ 9)) :=
  ⟨⟨le_refl 0, by norm_num⟩,
    generated_scores_in_range "resume" "job" 0 0 (le_refl 0) (by norm_num)⟩

/-- C2: every file whose `type` is 'application/pdf' makes `handleFileUpload`
call `setResumeText` with the one fixed `mockResumeText` constant,
independent of the contents, name and size of the file, so the resulting resume
text is identical across all uploads. -/
theorem handleFileUpload_pdf (file : UploadedFile)
    (h : file.type = "application/pdf") :
    handleFileUpload file =
      UploadEffect.uploaded mockResumeText
        "Resume uploaded successfully! (Demo version - using sample resume)" := by
  simp [handleFileUpload, h]

/-- Witness for the C2 theorem on a concrete PDF file. -/
theorem handleFileUpload_pdf_witness :
    (UploadedFile.mk "application/pdf" "cv.pdf" 12345 "arbitrary bytes").type
        = "application/pdf"
    ∧ handleFileUpload
        (UploadedFile.mk "application/pdf" "cv.pdf" 12345 "arbitrary bytes")
      = UploadEffect.uploaded mockResumeText
          "Resume uploaded successfully! (Demo version - using sample resume)" :=
  ⟨rfl, handleFileUpload_pdf
    (UploadedFile.mk "application/pdf" "cv.pdf" 12345 "arbitrary bytes") rfl⟩

/-- C9: every file whose `type` is not 'application/pdf' makes
`handleFileUpload` return after the alert alone, never calling
`setResumeText`, so the resume text state is unchanged. -/
theorem handleFileUpload_nonPdf (file : UploadedFile)
    (h : file.type ≠ "application/pdf") :
    handleFileUpload file = UploadEffect.rejected "Please upload a PDF file" := by
  simp [handleFileUpload, h]

/-- Witness for the C9 theorem on a concrete non-PDF file. -/
theorem handleFileUpload_nonPdf_witness :
    (UploadedFile.mk "text/plain" "cv.txt" 10 "hello").type ≠ "application/pdf"
    ∧ handleFileUpload (UploadedFile.mk "text/plain" "cv.txt" 10 "hello")
        = UploadEffect.rejected "Please upload a PDF file" :=
  ⟨by decide, handleFileUpload_nonPdf
    (UploadedFile.mk "text/plain" "cv.txt" 10 "hello") (by decide)⟩

/-- C4: `ResultsPanel` renders exactly one of three states: the loading
spinner precisely when `isAnalyzing` is true (taking priority over any
result), the empty "Ready to Analyze" state precisely when `isAnalyzing` is
false and the result is null, and otherwise the result card carrying the
feedback string of the result as raw HTML, with the score badge present exactly
when the result carries a score. -/
theorem resultsPanel_states (result : Option AnalysisResult) (isAnalyzing : Bool) :
    (renderResultsPanel result isAnalyzing = PanelView.loading ↔ isAnalyzing = true)
    ∧ (renderResultsPanel result isAnalyzing = PanelView.empty
        ↔ (isAnalyzing = false ∧ result = none))
    ∧ (∀ r : AnalysisResult,
        renderResultsPanel (some r) false
          = PanelView.resultCard (panelTitle r.mode) (panelBadge r) r.feedback)
    ∧ (∀ r : AnalysisResult,
        (panelBadge r).isSome = (r.atsScore.isSome || r.matchScore.isSome)) := by
  refine ⟨?_, ?_, ?_, ?_⟩
  · cases isAnalyzing <;> cases result <;> simp [renderResultsPanel]
  · cases isAnalyzing <;> cases result <;> simp [renderResultsPanel]
  · intro r
    simp [renderResultsPanel]
  · intro r
    by_cases h : (r.atsScore.isSome || r.matchScore.isSome) = true <;>
      simp_all [panelBadge]

/-- C5: when the awaited promise rejects after the guards pass,
`handleAnalysis` handles the failure with a single alert and a console log
only: `analysisResult` is left unchanged, the service is called exactly once
(no retry), and `isAnalyzing` is reset to false. -/
theorem handleAnalysis_rejection (s : AppState) (mode : Mode) (e : String)
    (hrt : ¬ (jsTrim s.resumeText) = "")
    (hjd : ¬ (mode = Mode.jobMatch ∧ (jsTrim s.jobDescription) = "")) :
    (handleAnalysis s mode (Except.error e)).analysisResult = s.analysisResult
    ∧ (handleAnalysis s mode (Except.error e)).isAnalyzing = false
    ∧ List.countP isAlert (handleAnalysisSteps s mode (Except.error e)) = 1
    ∧ List.countP isAwait (handleAnalysisSteps s mode (Except.error e)) = 1
    ∧ Step.alertShown "Analysis failed. Please try again."
        ∈ handleAnalysisSteps s mode (Except.error e)
    ∧ Step.consoleError ∈ handleAnalysisSteps s mode (Except.error e) := by
  simp [handleAnalysis, handleAnalysisSteps, hrt, hjd, applyStep,
    List.countP_cons, isAlert, isAwait]

/-- Witness for the C5 theorem on a concrete state whose guards pass. -/
theorem handleAnalysis_rejection_witness :
    (¬ jsTrim (AppState.mk "my resume" "my job" none false).resumeText = "")
    ∧ (¬ (Mode.ats = Mode.jobMatch
          ∧ jsTrim (AppState.mk "my resume" "my job" none false).jobDescription = ""))
    ∧ (handleAnalysis (AppState.mk "my resume" "my job" none false) Mode.ats
          (Except.error "network down")).analysisResult
        = (AppState.mk "my resume" "my job" none false).analysisResult
    ∧ (handleAnalysis (AppState.mk "my resume" "my job" none false) Mode.ats
          (Except.error "network down")).isAnalyzing = false :=
  ⟨by decide, by decide,
    (handleAnalysis_rejection (AppState.mk "my resume" "my job" none false)
      Mode.ats "network down" (by decide) (by decide)).1,
    (handleAnalysis_rejection (AppState.mk "my resume" "my job" none false)
      Mode.ats "network down" (by decide) (by decide)).2.1⟩

/-- C7: every complete `handleAnalysis` run past the guards follows the step
sequence setIsAnalyzing(true), await the mock promise, setAnalysisResult on
success (console log and alert on failure), and finally setIsAnalyzing
(false); `isAnalyzing` is never left true, whether the promise resolves or
rejects. -/
theorem handleAnalysis_sequence (s : AppState) (mode : Mode)
    (hrt : ¬ (jsTrim s.resumeText) = "")
    (hjd : ¬ (mode = Mode.jobMatch ∧ (jsTrim s.jobDescription) = "")) :
    (∀ result : AnalysisResult,
      handleAnalysisSteps s mode (Except.ok result)
        = [Step.setIsAnalyzing true,
           Step.awaitService s.resumeText
             (if mode = Mode.jobMatch then some s.jobDescription else none) mode,
           Step.setAnalysisResult result,
           Step.setIsAnalyzing false]
      ∧ (handleAnalysis s mode (Except.ok result)).analysisResult = some result)
    ∧ (∀ e : String,
      handleAnalysisSteps s mode (Except.error e)
        = [Step.setIsAnalyzing true,
           Step.awaitService s.resumeText
             (if mode = Mode.jobMatch then some s.jobDescription else none) mode,
           Step.consoleError,
           Step.alertShown "Analysis failed. Please try again.",
           Step.setIsAnalyzing false])
    ∧ (∀ outcome : Except String AnalysisResult,
        (handleAnalysis s mode outcome).isAnalyzing = false) := by
  refine ⟨?_, ?_, ?_⟩
  · intro result
    simp [handleAnalysis, handleAnalysisSteps, hrt, hjd, applyStep]
  · intro e
    simp [handleAnalysisSteps, hrt, hjd]
  · intro outcome
    cases outcome <;>
      simp [handleAnalysis, handleAnalysisSteps, hrt, hjd, applyStep]

/-- Witness for the C7 theorem on a concrete state whose guards pass, with a
concrete resolved result. -/
theorem handleAnalysis_sequence_witness :
    (¬ jsTrim (AppState.mk "my resume" "my job" none false).resumeText = "")
    ∧ (¬ (Mode.ats = Mode.jobMatch
          ∧ jsTrim (AppState.mk "my resume" "my job" none false).jobDescription = ""))
    ∧ (handleAnalysis (AppState.mk "my resume" "my job" none false) Mode.ats
        (Except.ok (AnalysisResult.mk Mode.ats (some 8) none "fb" 0))).isAnalyzing
      = false :=
  ⟨by decide, by decide,
    (handleAnalysis_sequence (AppState.mk "my resume" "my job" none false)
        Mode.ats (by decide) (by decide)).2.2
      (Except.ok (AnalysisResult.mk Mode.ats (some 8) none "fb" 0))⟩

/-- C10: when a guard fails — empty or whitespace-only resume text, or
job-match mode with an empty or whitespace-only job description —
`handleAnalysis` returns after a single alert, never calling the service and
leaving `analysisResult` and `isAnalyzing` (indeed the whole state)
unchanged. -/
theorem handleAnalysis_guard (s : AppState) (mode : Mode)
    (outcome : Except String AnalysisResult)
    (h : (jsTrim s.resumeText) = ""
        ∨ (mode = Mode.jobMatch ∧ (jsTrim s.jobDescription) = "")) :
    handleAnalysis s mode outcome = s
    ∧ (∃ message, handleAnalysisSteps s mode outcome = [Step.alertShown message])
    ∧ List.countP isAwait (handleAnalysisSteps s mode outcome) = 0 := by
  by_cases hrt : (jsTrim s.resumeText) = ""
  · refine ⟨?_, ⟨"Please upload a resume first", ?_⟩, ?_⟩ <;>
      simp [handleAnalysis, handleAnalysisSteps, hrt, applyStep, isAwait]
  · have hjd : mode = Mode.jobMatch ∧ (jsTrim s.jobDescription) = "" := by
      rcases h with h | h
      · exact absurd h hrt
      · exact h
    refine ⟨?_, ⟨"Please provide a job description for job-specific analysis", ?_⟩, ?_⟩ <;>
      simp [handleAnalysis, handleAnalysisSteps, hrt, hjd, applyStep, isAwait]

/-- Witness for the C10 theorem on a concrete state with whitespace-only
resume text. -/
theorem handleAnalysis_guard_witness :
    (jsTrim (AppState.mk "   " "job" none false).resumeText = ""
      ∨ (Mode.ats = Mode.jobMatch
          ∧ jsTrim (AppState.mk "   " "job" none false).jobDescription = ""))
    ∧ handleAnalysis (AppState.mk "   " "job" none false) Mode.ats
        (Except.error "never sent") = AppState.mk "   " "job" none false :=
  ⟨Or.inl (by decide),
    (handleAnalysis_guard (AppState.mk "   " "job" none false) Mode.ats
      (Except.error "never sent") (Or.inl (by decide))).1⟩

end ResumeScanner
